import Mathlib

/-!
Shallow embedding of `src/chia_log/handlers/harvester_activity_handler.py`
from the chiadog repository: the harvester-activity log handler and its four
condition checkers.

Modelling decisions:
* Timestamps are rationals, measured in seconds (Python `datetime` values are
  exact to the microsecond, so every timestamp difference the code can see is
  a rational number of seconds).
* The Python `timedelta.seconds` attribute (used by `TimeSinceLastFarmEvent`) is
  embedded faithfully: a timedelta is normalized so that its day component is
  `⌊d / 86400⌋` and `.seconds` is the whole-second part of the remainder,
  which always lies in `[0, 86399]` — also for negative differences.
* Mutable checker state becomes explicit state passing: each stateful checker
  is a structure, and `check` returns the new state together with the
  optional event, mirroring the Python method that mutates `self` and
  returns `Optional[Event]`.
-/

/-- Modelled from the spec: event kinds from the external notifier module
(`src.notifier`, not part of the handler source). Only the two kinds the
handler constructs are needed: `keepalive` and `user-facing`. -/
inductive EventType where
  | KEEPALIVE
  | USER
deriving DecidableEq

/-- Modelled from the spec: event priorities `low < normal < high` from the
external notifier module. -/
inductive EventPriority where
  | LOW
  | NORMAL
  | HIGH
deriving DecidableEq

/-- Modelled from the spec: the source tag of the emitting subsystem; the
handler only ever uses the harvester tag. -/
inductive EventService where
  | HARVESTER
deriving DecidableEq

/-- Modelled from the spec: the Notification Event record produced for the
delivery sink (`src.notifier.Event`). -/
structure Event where
  type : EventType
  priority : EventPriority
  service : EventService
  message : String
deriving DecidableEq

/-- Modelled from the spec: the structured Activity Message produced by the
external parser (`HarvesterActivityMessage` from
`src.chia_log.parsers.harvester_activity_parser`): timestamp (seconds),
total plot count, search time in seconds, number of proofs found. -/
structure HarvesterActivityMessage where
  timestamp : ℚ
  total_plots_count : ℕ
  search_time_seconds : ℚ
  found_proofs_count : ℕ

/-- Python `timedelta` normalization: the number of whole days in a duration
of `d` seconds, rounded toward negative infinity (Python floor division). -/
def timedeltaDays (d : ℚ) : ℤ := ⌊d / 86400⌋

/-- Python `timedelta.seconds`: the whole-second part left after removing
whole days, always in `[0, 86399]`.  This is the value the source computes as
`(obj.timestamp - self._last_timestamp).seconds`. -/
def timedeltaSeconds (d : ℚ) : ℤ := ⌊d - 86400 * timedeltaDays d⌋

/-- The keep-alive event appended by `HarvesterActivityHandler.handle`
whenever at least one activity message was parsed. -/
def keepaliveEvent : Event :=
  ⟨EventType.KEEPALIVE, EventPriority.NORMAL, EventService.HARVESTER, ""⟩

/-- State of the `TimeSinceLastFarmEvent` checker: the two thresholds set in
`__init__` and the last seen timestamp (initially absent). -/
structure TimeSinceLastFarmEvent where
  info_threshold : ℤ
  warning_threshold : ℤ
  last_timestamp : Option ℚ

/-- Initial state built by `TimeSinceLastFarmEvent.__init__`. -/
def TimeSinceLastFarmEvent.init : TimeSinceLastFarmEvent := ⟨30, 60, none⟩

/-- The event constructed in the `seconds_since_last > warning_threshold`
branch of `TimeSinceLastFarmEvent.check`. -/
def TimeSinceLastFarmEvent.warningEvent (seconds_since_last : ℤ) : Event :=
  ⟨EventType.USER, EventPriority.NORMAL, EventService.HARVESTER,
    "Experiencing networking issues? Harvester did not participate in any challenge for " ++
      toString seconds_since_last ++ " seconds. It\x27s now working again."⟩

/-- Embedding of `TimeSinceLastFarmEvent.check`: on the first call only the
timestamp is recorded; afterwards the gap is pushed through Python
`timedelta.seconds` and compared strictly against the warning threshold.
The `info_threshold` branch only logs and emits nothing.  The last timestamp
is updated on every call. -/
def TimeSinceLastFarmEvent.check (s : TimeSinceLastFarmEvent)
    (obj : HarvesterActivityMessage) : TimeSinceLastFarmEvent × Option Event :=
  match s.last_timestamp with
  | none => (⟨s.info_threshold, s.warning_threshold, some obj.timestamp⟩, none)
  | some last =>
    let seconds_since_last := timedeltaSeconds (obj.timestamp - last)
    let event : Option Event :=
      if seconds_since_last > s.warning_threshold then
        some (TimeSinceLastFarmEvent.warningEvent seconds_since_last)
      else
        none
    (⟨s.info_threshold, s.warning_threshold, some obj.timestamp⟩, event)

/-- State of the `NonDecreasingPlots` checker: the plot count recorded by the
previous call (named `_max_farmed_plots` in the source, though it is reset to
the current count at the end of every call). -/
structure NonDecreasingPlots where
  max_farmed_plots : ℕ
deriving DecidableEq

/-- Initial state built by `NonDecreasingPlots.__init__`. -/
def NonDecreasingPlots.init : NonDecreasingPlots := ⟨0⟩

/-- The event constructed in the increase branch of
`NonDecreasingPlots.check`. -/
def NonDecreasingPlots.increaseEvent (total_plots_count : ℕ) : Event :=
  ⟨EventType.USER, EventPriority.LOW, EventService.HARVESTER,
    "The total plot count increased to " ++ toString total_plots_count ++ "."⟩

/-- The event constructed in the decrease branch of
`NonDecreasingPlots.check`. -/
def NonDecreasingPlots.decreaseEvent (maxPlots current : ℕ) : Event :=
  ⟨EventType.USER, EventPriority.HIGH, EventService.HARVESTER,
    "Disconnected HDD? The total plot count decreased from " ++
      toString maxPlots ++ " to " ++ toString current ++ "."⟩

/-- Embedding of `NonDecreasingPlots.check`.  The source uses two sequential
`if` statements (not `elif`); the first one assigns
`self._max_farmed_plots = obj.total_plots_count` before the second compares
against it, so the intermediate state `m1` is threaded through exactly as in
the source, and finally the state is reset to the current count. -/
def NonDecreasingPlots.check (s : NonDecreasingPlots)
    (obj : HarvesterActivityMessage) : NonDecreasingPlots × Option Event :=
  let event : Option Event := none
  let step1 : ℕ × Option Event :=
    if obj.total_plots_count > s.max_farmed_plots then
      (obj.total_plots_count, some (NonDecreasingPlots.increaseEvent obj.total_plots_count))
    else
      (s.max_farmed_plots, event)
  let m1 := step1.1
  let event2 : Option Event :=
    if obj.total_plots_count < m1 then
      some (NonDecreasingPlots.decreaseEvent m1 obj.total_plots_count)
    else
      step1.2
  (⟨obj.total_plots_count⟩, event2)

/-- The event constructed by `QuickPlotSearchTime.check`. -/
def QuickPlotSearchTime.warnEvent (search_time_seconds : ℚ) : Event :=
  ⟨EventType.USER, EventPriority.NORMAL, EventService.HARVESTER,
    "Seeking plots took too long: " ++ toString search_time_seconds ++ " seconds!"⟩

/-- Embedding of `QuickPlotSearchTime.check`: stateless strict comparison of
the search time against the 25-second warning threshold fixed in
`__init__`. -/
def QuickPlotSearchTime.check (obj : HarvesterActivityMessage) : Option Event :=
  let warning_threshold : ℚ := 25
  if obj.search_time_seconds > warning_threshold then
    some (QuickPlotSearchTime.warnEvent obj.search_time_seconds)
  else
    none

/-- The event constructed by `FoundProofs.check`. -/
def FoundProofs.foundEvent (found_proofs_count : ℕ) : Event :=
  ⟨EventType.USER, EventPriority.LOW, EventService.HARVESTER,
    "Found " ++ toString found_proofs_count ++ " proof(s)!"⟩

/-- Embedding of `FoundProofs.check`: stateless, fires whenever at least one
proof was found. -/
def FoundProofs.check (obj : HarvesterActivityMessage) : Option Event :=
  if obj.found_proofs_count > 0 then
    some (FoundProofs.foundEvent obj.found_proofs_count)
  else
    none

/-- State of `HarvesterActivityHandler`: the states of the two stateful
condition checkers.  The source keeps `_cond_checkers` as the ordered list
`[TimeSinceLastFarmEvent, NonDecreasingPlots, QuickPlotSearchTime,
FoundProofs]`; the last two are stateless, so only the first two contribute
state. -/
structure HarvesterActivityHandler where
  time_since_last : TimeSinceLastFarmEvent
  non_decreasing : NonDecreasingPlots

/-- Initial handler state built by `HarvesterActivityHandler.__init__`. -/
def HarvesterActivityHandler.init : HarvesterActivityHandler :=
  ⟨TimeSinceLastFarmEvent.init, NonDecreasingPlots.init⟩

/-- One iteration of the inner loop of `handle`: run a single message through
all four condition checkers in construction order, collecting the events each
returns (at most one per checker). -/
def HarvesterActivityHandler.runCheckers (h : HarvesterActivityHandler)
    (msg : HarvesterActivityMessage) : HarvesterActivityHandler × List Event :=
  let t := TimeSinceLastFarmEvent.check h.time_since_last msg
  let n := NonDecreasingPlots.check h.non_decreasing msg
  let q := QuickPlotSearchTime.check msg
  let f := FoundProofs.check msg
  (⟨t.1, n.1⟩, t.2.toList ++ n.2.toList ++ q.toList ++ f.toList)

/-- Embedding of `HarvesterActivityHandler.handle`.  The external parser is a
black box with contract `parse(raw_text) -> ordered list of messages`, so
`handle` is parameterized directly by the parser output
`activity_messages`.  If any message was parsed, a keep-alive event is
appended first; then every message is run through every checker in order. -/
def HarvesterActivityHandler.handle (h : HarvesterActivityHandler)
    (activity_messages : List HarvesterActivityMessage) :
    HarvesterActivityHandler × List Event :=
  let keepalive : List Event :=
    if activity_messages.length > 0 then [keepaliveEvent] else []
  let final := activity_messages.foldl
    (fun acc msg =>
      let r := HarvesterActivityHandler.runCheckers acc.1 msg
      (r.1, acc.2 ++ r.2))
    (h, ([] : List Event))
  (final.1, keepalive ++ final.2)

/-- Repeated invocation of `NonDecreasingPlots.check` on a list of messages,
collecting the emitted events in order; used to state the spec scenario that
feeds the checker a sequence of plot counts. -/
def NonDecreasingPlots.run (s : NonDecreasingPlots)
    (msgs : List HarvesterActivityMessage) : NonDecreasingPlots × List Event :=
  msgs.foldl
    (fun acc msg =>
      let r := NonDecreasingPlots.check acc.1 msg
      (r.1, acc.2 ++ r.2.toList))
    (s, ([] : List Event))

/-- Toward-zero truncation of a rational to an integer, as the words of the spec
"fractional seconds truncated toward zero" describe the delta computation;
stated separately from the `timedeltaSeconds` of the source so the two can be
compared. -/
def truncTowardZero (q : ℚ) : ℤ := if 0 ≤ q then ⌊q⌋ else ⌈q⌉

/-- Evaluation rule for `timedeltaDays` from rational bounds. -/
lemma timedeltaDays_eq (d : ℚ) (k : ℤ)
    (h1 : (k : ℚ) * 86400 ≤ d) (h2 : d < ((k : ℚ) + 1) * 86400) :
    timedeltaDays d = k := by
  unfold timedeltaDays
  rw [Int.floor_eq_iff]
  refine ⟨?_, ?_⟩
  · rw [le_div_iff₀ (by norm_num : (0:ℚ) < 86400)]
    exact h1
  · rw [div_lt_iff₀ (by norm_num : (0:ℚ) < 86400)]
    exact h2

/-- Evaluation rule for `timedeltaSeconds` from rational bounds: `k` is the
whole number of days in the duration `d` and `s` the whole-second remainder. -/
lemma timedeltaSeconds_eq (d : ℚ) (k s : ℤ)
    (h1 : (k : ℚ) * 86400 ≤ d) (h2 : d < ((k : ℚ) + 1) * 86400)
    (h3 : (s : ℚ) ≤ d - 86400 * (k : ℚ)) (h4 : d - 86400 * (k : ℚ) < (s : ℚ) + 1) :
    timedeltaSeconds d = s := by
  unfold timedeltaSeconds
  rw [timedeltaDays_eq d k h1 h2, Int.floor_eq_iff]
  exact ⟨h3, h4⟩

/-- Unfolding rule for `TimeSinceLastFarmEvent.check` on the first call. -/
lemma TimeSinceLastFarmEvent.check_first (it wt : ℤ) (obj : HarvesterActivityMessage) :
    TimeSinceLastFarmEvent.check ⟨it, wt, none⟩ obj = (⟨it, wt, some obj.timestamp⟩, none) :=
  rfl

/-- Unfolding rule for `TimeSinceLastFarmEvent.check` on subsequent calls. -/
lemma TimeSinceLastFarmEvent.check_subsequent (it wt : ℤ) (last : ℚ)
    (obj : HarvesterActivityMessage) :
    TimeSinceLastFarmEvent.check ⟨it, wt, some last⟩ obj =
      (⟨it, wt, some obj.timestamp⟩,
        if timedeltaSeconds (obj.timestamp - last) > wt then
          some (TimeSinceLastFarmEvent.warningEvent (timedeltaSeconds (obj.timestamp - last)))
        else none) :=
  rfl

/-- Concrete evaluations of `timedeltaSeconds` at the gaps appearing in the
spec scenarios: sub-day nonnegative gaps are simply truncated. -/
lemma timedeltaSeconds_forty : timedeltaSeconds 40 = 40 :=
  timedeltaSeconds_eq 40 0 40 (by norm_num) (by norm_num) (by norm_num) (by norm_num)

lemma timedeltaSeconds_five : timedeltaSeconds 5 = 5 :=
  timedeltaSeconds_eq 5 0 5 (by norm_num) (by norm_num) (by norm_num) (by norm_num)

lemma timedeltaSeconds_thirty : timedeltaSeconds 30 = 30 :=
  timedeltaSeconds_eq 30 0 30 (by norm_num) (by norm_num) (by norm_num) (by norm_num)

lemma timedeltaSeconds_sixty : timedeltaSeconds 60 = 60 :=
  timedeltaSeconds_eq 60 0 60 (by norm_num) (by norm_num) (by norm_num) (by norm_num)

lemma timedeltaSeconds_sixtyone : timedeltaSeconds 61 = 61 :=
  timedeltaSeconds_eq 61 0 61 (by norm_num) (by norm_num) (by norm_num) (by norm_num)

lemma timedeltaSeconds_zero : timedeltaSeconds 0 = 0 :=
  timedeltaSeconds_eq 0 0 0 (by norm_num) (by norm_num) (by norm_num) (by norm_num)

/-- Python timedelta normalization sends a duration of `-5` seconds to
`-1` days plus `86395` seconds, so `.seconds` reads `86395`. -/
lemma timedeltaSeconds_neg_five : timedeltaSeconds (-5) = 86395 :=
  timedeltaSeconds_eq (-5) (-1) 86395 (by norm_num) (by norm_num) (by norm_num) (by norm_num)

/-- A gap of one day plus 60.9 seconds reads as 60 seconds. -/
lemma timedeltaSeconds_day_sixty_nine_tenths : timedeltaSeconds (864609 / 10) = 60 :=
  timedeltaSeconds_eq (864609 / 10) 1 60 (by norm_num) (by norm_num) (by norm_num) (by norm_num)

/-- A gap of 60.9 seconds reads as 60 seconds. -/
lemma timedeltaSeconds_sixty_nine_tenths : timedeltaSeconds (609 / 10) = 60 :=
  timedeltaSeconds_eq (609 / 10) 0 60 (by norm_num) (by norm_num) (by norm_num) (by norm_num)

/-- A gap of one day plus 5 seconds reads as 5 seconds. -/
lemma timedeltaSeconds_day_plus_five : timedeltaSeconds 86405 = 5 :=
  timedeltaSeconds_eq 86405 1 5 (by norm_num) (by norm_num) (by norm_num) (by norm_num)

/-- A gap of one day plus 61 seconds reads as 61 seconds. -/
lemma timedeltaSeconds_day_plus_sixtyone : timedeltaSeconds 86461 = 61 :=
  timedeltaSeconds_eq 86461 1 61 (by norm_num) (by norm_num) (by norm_num) (by norm_num)

/-- A message with a given timestamp and neutral remaining fields, used to
exercise the time-based checker. -/
def msgAtTime (t : ℚ) : HarvesterActivityMessage := ⟨t, 0, 0, 0⟩

/-- A message with a given plot count and neutral remaining fields, used to
exercise the plot-count checker. -/
def msgWithPlots (n : ℕ) : HarvesterActivityMessage := ⟨0, n, 0, 0⟩

/-- C3: the Time-Since-Last-Event checker emits nothing on its first call
(for any message); from a recorded baseline at time 0, a call at time 61
(delta 61) emits exactly the normal-priority user-facing warning event and a
further call at time 66 (delta 5) emits nothing again; and from any baseline
`a`, calls at deltas of exactly 30 or exactly 60 seconds emit nothing
(strict comparison). -/
theorem c3_time_since_last_event_scenario :
    (∀ msg : HarvesterActivityMessage,
      (TimeSinceLastFarmEvent.check TimeSinceLastFarmEvent.init msg).2 = none) ∧
    (TimeSinceLastFarmEvent.check
        (TimeSinceLastFarmEvent.check TimeSinceLastFarmEvent.init (msgAtTime 0)).1
        (msgAtTime 61)).2 = some (TimeSinceLastFarmEvent.warningEvent 61) ∧
    (TimeSinceLastFarmEvent.warningEvent 61).type = EventType.USER ∧
    (TimeSinceLastFarmEvent.warningEvent 61).priority = EventPriority.NORMAL ∧
    (TimeSinceLastFarmEvent.check
        (TimeSinceLastFarmEvent.check
          (TimeSinceLastFarmEvent.check TimeSinceLastFarmEvent.init (msgAtTime 0)).1
          (msgAtTime 61)).1
        (msgAtTime 66)).2 = none ∧
    (∀ a : ℚ, (TimeSinceLastFarmEvent.check ⟨30, 60, some a⟩ (msgAtTime (a + 30))).2 = none) ∧
    (∀ a : ℚ, (TimeSinceLastFarmEvent.check ⟨30, 60, some a⟩ (msgAtTime (a + 60))).2 = none) := by
  refine ⟨fun msg => rfl, ?_, rfl, rfl, ?_, ?_, ?_⟩
  · rw [show (TimeSinceLastFarmEvent.check TimeSinceLastFarmEvent.init (msgAtTime 0)).1 =
        ⟨30, 60, some 0⟩ from rfl, TimeSinceLastFarmEvent.check_subsequent]
    norm_num [msgAtTime, timedeltaSeconds_sixtyone]
  · rw [show (TimeSinceLastFarmEvent.check
        (TimeSinceLastFarmEvent.check TimeSinceLastFarmEvent.init (msgAtTime 0)).1
        (msgAtTime 61)).1 = ⟨30, 60, some 61⟩ from rfl, TimeSinceLastFarmEvent.check_subsequent]
    norm_num [msgAtTime, show (66 : ℚ) - 61 = 5 from by norm_num, timedeltaSeconds_five]
  · intro a
    rw [TimeSinceLastFarmEvent.check_subsequent]
    norm_num [msgAtTime, timedeltaSeconds_thirty]
  · intro a
    rw [TimeSinceLastFarmEvent.check_subsequent]
    norm_num [msgAtTime, timedeltaSeconds_sixty]

/-- C2 counterexample: with a recorded last timestamp of 5 seconds, a message
timestamped 0 seconds (a negative delta of −5 s) makes the checker emit an
event — Python timedelta normalization turns −5 s into −1 day + 86395 s, and
86395 exceeds the 60-second warning threshold.  This refutes the claim that a
zero-or-negative delta is always treated as below both thresholds. -/
theorem c2_negative_delta_counterexample :
    (TimeSinceLastFarmEvent.check ⟨30, 60, some 5⟩ (msgAtTime 0)).2 =
      some (TimeSinceLastFarmEvent.warningEvent 86395) := by
  rw [TimeSinceLastFarmEvent.check_subsequent]
  norm_num [msgAtTime, show (0 : ℚ) - 5 = -5 from by norm_num, timedeltaSeconds_neg_five]

/-- C2 amended: a call whose timestamp equals the recorded last timestamp
(zero delta) raises no error and emits no event; but a call whose timestamp
is 5 seconds earlier (negative delta) raises no error yet emits a warning
event reporting 86395 seconds, because `timedelta.seconds` normalizes the
negative difference modulo one day.  (The embedding is a total function, so
no call can raise.) -/
theorem c2_zero_or_negative_delta_amended (last : ℚ) :
    (TimeSinceLastFarmEvent.check ⟨30, 60, some last⟩ (msgAtTime last)).2 = none ∧
    (TimeSinceLastFarmEvent.check ⟨30, 60, some last⟩ (msgAtTime (last - 5))).2 =
      some (TimeSinceLastFarmEvent.warningEvent 86395) := by
  constructor
  · rw [TimeSinceLastFarmEvent.check_subsequent]
    norm_num [msgAtTime, timedeltaSeconds_zero]
  · rw [TimeSinceLastFarmEvent.check_subsequent]
    norm_num [msgAtTime, show last - 5 - last = -5 from by ring, timedeltaSeconds_neg_five]

/-- C4: feeding the Non-Decreasing Plot Count checker, freshly initialised
with state 0, the plot counts [10, 15, 12, 15] yields four events in order:
low-priority increase to 10 (baseline 0 → 10), low-priority increase to 15,
high-priority decrease from 15 to 12, and low-priority increase to 15; the
state ends reset to the current count 15. -/
theorem c4_plot_count_sequence :
    NonDecreasingPlots.run NonDecreasingPlots.init
        [msgWithPlots 10, msgWithPlots 15, msgWithPlots 12, msgWithPlots 15] =
      (⟨15⟩,
        [NonDecreasingPlots.increaseEvent 10, NonDecreasingPlots.increaseEvent 15,
          NonDecreasingPlots.decreaseEvent 15 12, NonDecreasingPlots.increaseEvent 15]) := by
  decide

/-- C9: the Search-Time checker emits exactly one normal-priority user-facing
event precisely when the search time strictly exceeds 25 seconds: any message
with search time above 25 yields the warning event, any message with search
time at most 25 (including exactly 25) yields nothing, and 25.01 yields the
event.  The checker is a pure function of the message alone (no state). -/
theorem c9_search_time_threshold :
    (∀ msg : HarvesterActivityMessage, 25 < msg.search_time_seconds →
      QuickPlotSearchTime.check msg =
        some (QuickPlotSearchTime.warnEvent msg.search_time_seconds)) ∧
    (∀ msg : HarvesterActivityMessage, msg.search_time_seconds ≤ 25 →
      QuickPlotSearchTime.check msg = none) ∧
    QuickPlotSearchTime.check ⟨0, 0, 25, 0⟩ = none ∧
    QuickPlotSearchTime.check ⟨0, 0, 25.01, 0⟩ =
      some (QuickPlotSearchTime.warnEvent 25.01) ∧
    (QuickPlotSearchTime.warnEvent 25.01).type = EventType.USER ∧
    (QuickPlotSearchTime.warnEvent 25.01).priority = EventPriority.NORMAL := by
  refine ⟨?_, ?_, ?_, ?_, rfl, rfl⟩
  · intro msg h
    simp only [QuickPlotSearchTime.check]
    rw [if_pos h]
  · intro msg h
    simp only [QuickPlotSearchTime.check]
    rw [if_neg (not_lt.mpr h)]
  · simp only [QuickPlotSearchTime.check]
    norm_num
  · simp only [QuickPlotSearchTime.check]
    norm_num

/-- Witness for C9 at concrete inputs: a search time of 26 seconds exceeds
the threshold and fires the event; a search time of 24 seconds does not. -/
theorem c9_search_time_threshold_witness :
    QuickPlotSearchTime.check ⟨0, 0, 26, 0⟩ = some (QuickPlotSearchTime.warnEvent 26) ∧
    QuickPlotSearchTime.check ⟨0, 0, 24, 0⟩ = none :=
  ⟨c9_search_time_threshold.1 ⟨0, 0, 26, 0⟩ (by decide),
    c9_search_time_threshold.2.1 ⟨0, 0, 24, 0⟩ (by decide)⟩

/-- Options hold at most one element; used to phrase "at most one event". -/
lemma option_toList_length_le_one {α : Type} (o : Option α) : o.toList.length ≤ 1 := by
  cases o <;> simp

/-- C5: every checker returns at most one event per call — each `check`
yields an optional event, contributing at most one element to the handler
result — and the Non-Decreasing Plot Count checker has two branches that are
mutually exclusive within one call: when the count rose the result is
exactly the increase event, and when it fell the result is exactly the
decrease event (the second `if` of the source compares against the already
updated maximum, so it cannot also fire after the first). -/
theorem c5_at_most_one_event_per_check
    (t : TimeSinceLastFarmEvent) (n : NonDecreasingPlots)
    (msg : HarvesterActivityMessage) :
    (TimeSinceLastFarmEvent.check t msg).2.toList.length ≤ 1 ∧
    (NonDecreasingPlots.check n msg).2.toList.length ≤ 1 ∧
    (QuickPlotSearchTime.check msg).toList.length ≤ 1 ∧
    (FoundProofs.check msg).toList.length ≤ 1 ∧
    (n.max_farmed_plots < msg.total_plots_count →
      (NonDecreasingPlots.check n msg).2 =
        some (NonDecreasingPlots.increaseEvent msg.total_plots_count)) ∧
    (msg.total_plots_count < n.max_farmed_plots →
      (NonDecreasingPlots.check n msg).2 =
        some (NonDecreasingPlots.decreaseEvent n.max_farmed_plots msg.total_plots_count)) := by
  refine ⟨option_toList_length_le_one _, option_toList_length_le_one _,
    option_toList_length_le_one _, option_toList_length_le_one _, ?_, ?_⟩
  · intro h
    simp [NonDecreasingPlots.check, h, lt_irrefl]
  · intro h
    simp [NonDecreasingPlots.check, h, lt_asymm h]

/-- Witness for C5 at concrete inputs: from state 5, a count of 7 fires only
the increase event and a count of 3 fires only the decrease event. -/
theorem c5_at_most_one_event_per_check_witness :
    (NonDecreasingPlots.check ⟨5⟩ (msgWithPlots 7)).2 =
      some (NonDecreasingPlots.increaseEvent 7) ∧
    (NonDecreasingPlots.check ⟨5⟩ (msgWithPlots 3)).2 =
      some (NonDecreasingPlots.decreaseEvent 5 3) :=
  ⟨(c5_at_most_one_event_per_check TimeSinceLastFarmEvent.init ⟨5⟩
      (msgWithPlots 7)).2.2.2.2.1 (by decide),
    (c5_at_most_one_event_per_check TimeSinceLastFarmEvent.init ⟨5⟩
      (msgWithPlots 3)).2.2.2.2.2 (by decide)⟩

/-- C7: when the parser returns no activity messages, `handle` returns the
empty event list (no keep-alive), leaves every checker state untouched, and
its result is a genuine (empty) list, never an absent value. -/
theorem c7_empty_parse_empty_result (h : HarvesterActivityHandler) :
    HarvesterActivityHandler.handle h [] = (h, []) := rfl

/-- Every event the Time-Since-Last-Event checker emits is user-facing. -/
lemma tslfe_check_event_user (s : TimeSinceLastFarmEvent)
    (msg : HarvesterActivityMessage) :
    ∀ e ∈ (TimeSinceLastFarmEvent.check s msg).2, e.type = EventType.USER := by
  rcases s with ⟨it, wt, last⟩
  cases last with
  | none => simp [TimeSinceLastFarmEvent.check]
  | some l =>
    simp only [TimeSinceLastFarmEvent.check]
    intro e he
    split at he
    · simp only [Option.mem_def, Option.some.injEq] at he
      rw [← he]
      rfl
    · simp at he

/-- Every event the Non-Decreasing Plot Count checker emits is user-facing. -/
lemma ndp_check_event_user (s : NonDecreasingPlots)
    (msg : HarvesterActivityMessage) :
    ∀ e ∈ (NonDecreasingPlots.check s msg).2, e.type = EventType.USER := by
  simp only [NonDecreasingPlots.check]
  intro e he
  split at he <;> split at he <;>
    simp_all [NonDecreasingPlots.increaseEvent, NonDecreasingPlots.decreaseEvent] <;>
    rw [← he]

/-- Every event the Search-Time checker emits is user-facing. -/
lemma qpst_check_event_user (msg : HarvesterActivityMessage) :
    ∀ e ∈ QuickPlotSearchTime.check msg, e.type = EventType.USER := by
  simp only [QuickPlotSearchTime.check]
  intro e he
  split at he
  · simp only [Option.mem_def, Option.some.injEq] at he
    rw [← he]
    rfl
  · simp at he

/-- Every event the Found-Proofs checker emits is user-facing. -/
lemma fp_check_event_user (msg : HarvesterActivityMessage) :
    ∀ e ∈ FoundProofs.check msg, e.type = EventType.USER := by
  simp only [FoundProofs.check]
  intro e he
  split at he
  · simp only [Option.mem_def, Option.some.injEq] at he
    rw [← he]
    rfl
  · simp at he

/-- Every event produced by one pass over the four condition checkers is
user-facing: no checker ever emits a keep-alive event. -/
lemma HarvesterActivityHandler.runCheckers_event_user (h : HarvesterActivityHandler)
    (msg : HarvesterActivityMessage) :
    ∀ e ∈ (HarvesterActivityHandler.runCheckers h msg).2, e.type = EventType.USER := by
  intro e he
  simp only [HarvesterActivityHandler.runCheckers, List.mem_append, Option.mem_toList] at he
  rcases he with ((h1 | h2) | h3) | h4
  · exact tslfe_check_event_user _ _ _ h1
  · exact ndp_check_event_user _ _ _ h2
  · exact qpst_check_event_user _ _ h3
  · exact fp_check_event_user _ _ h4

/-- Accumulating checker passes over any message list preserves the property
that every accumulated event is user-facing. -/
lemma HarvesterActivityHandler.foldl_event_user (msgs : List HarvesterActivityMessage) :
    ∀ (h : HarvesterActivityHandler) (acc : List Event),
      (∀ e ∈ acc, e.type = EventType.USER) →
      ∀ e ∈ (msgs.foldl
        (fun acc msg =>
          let r := HarvesterActivityHandler.runCheckers acc.1 msg
          (r.1, acc.2 ++ r.2))
        (h, acc)).2, e.type = EventType.USER := by
  induction msgs with
  | nil => intro h acc hacc; simpa using hacc
  | cons m ms ih =>
    intro h acc hacc e he
    simp only [List.foldl_cons] at he
    refine ih _ _ (fun x hx => ?_) e he
    rcases List.mem_append.mp hx with h1 | h2
    · exact hacc x h1
    · exact HarvesterActivityHandler.runCheckers_event_user _ _ x h2

/-- C6: whenever the parser produced at least one activity message, the first
event `handle` returns is the keep-alive event (empty message, normal
priority, harvester source), and every later event in the result is
user-facing — so the keep-alive at the head is the only keep-alive event. -/
theorem c6_keepalive_first (h : HarvesterActivityHandler)
    (msgs : List HarvesterActivityMessage) (hne : msgs ≠ []) :
    (HarvesterActivityHandler.handle h msgs).2.head? = some keepaliveEvent ∧
    ∀ e ∈ (HarvesterActivityHandler.handle h msgs).2.tail, e.type = EventType.USER := by
  have hlen : msgs.length > 0 := List.length_pos.mpr hne
  simp only [HarvesterActivityHandler.handle, if_pos hlen]
  exact ⟨rfl, HarvesterActivityHandler.foldl_event_user msgs h [] (by simp)⟩

/-- Witness for C6 at a concrete input: a single neutral message yields a
result headed by the keep-alive event with a user-facing-only tail. -/
theorem c6_keepalive_first_witness :
    (HarvesterActivityHandler.handle HarvesterActivityHandler.init [msgAtTime 0]).2.head? =
      some keepaliveEvent ∧
    ∀ e ∈ (HarvesterActivityHandler.handle HarvesterActivityHandler.init
      [msgAtTime 0]).2.tail, e.type = EventType.USER :=
  c6_keepalive_first HarvesterActivityHandler.init [msgAtTime 0] (by simp)

/-- Full evaluation of `handle` on a fresh handler for the end-to-end scenario of the
spec, with messages {t=0, plots=100, search=5, proofs=0} and
{t=40, plots=100, search=5, proofs=1}: the keep-alive fires, the fresh
plot-count baseline 0 → 100 fires the low-priority increase event on the
first message, and the single found proof fires the low-priority proof event
on the second message; the 40-second gap fires nothing. -/
lemma handle_end_to_end_eval :
    (HarvesterActivityHandler.handle HarvesterActivityHandler.init
        [⟨0, 100, 5, 0⟩, ⟨40, 100, 5, 1⟩]).2 =
      [keepaliveEvent, NonDecreasingPlots.increaseEvent 100, FoundProofs.foundEvent 1] := by
  have ht1 : TimeSinceLastFarmEvent.check ⟨30, 60, none⟩
      (⟨0, 100, 5, 0⟩ : HarvesterActivityMessage) = (⟨30, 60, some 0⟩, none) := rfl
  have ht2 : TimeSinceLastFarmEvent.check ⟨30, 60, some 0⟩
      (⟨40, 100, 5, 1⟩ : HarvesterActivityMessage) = (⟨30, 60, some 40⟩, none) := by
    rw [TimeSinceLastFarmEvent.check_subsequent]
    norm_num [timedeltaSeconds_forty]
  have hn1 : NonDecreasingPlots.check ⟨0⟩ (⟨0, 100, 5, 0⟩ : HarvesterActivityMessage) =
      (⟨100⟩, some (NonDecreasingPlots.increaseEvent 100)) := by decide
  have hn2 : NonDecreasingPlots.check ⟨100⟩ (⟨40, 100, 5, 1⟩ : HarvesterActivityMessage) =
      (⟨100⟩, none) := by decide
  have hq1 : QuickPlotSearchTime.check (⟨0, 100, 5, 0⟩ : HarvesterActivityMessage) = none := by
    decide
  have hq2 : QuickPlotSearchTime.check (⟨40, 100, 5, 1⟩ : HarvesterActivityMessage) = none := by
    decide
  have hf1 : FoundProofs.check (⟨0, 100, 5, 0⟩ : HarvesterActivityMessage) = none := by decide
  have hf2 : FoundProofs.check (⟨40, 100, 5, 1⟩ : HarvesterActivityMessage) =
      some (FoundProofs.foundEvent 1) := by decide
  simp only [HarvesterActivityHandler.handle, HarvesterActivityHandler.runCheckers,
    HarvesterActivityHandler.init, TimeSinceLastFarmEvent.init, NonDecreasingPlots.init,
    List.foldl_cons, List.foldl_nil, ht1, ht2, hn1, hn2, hq1, hq2, hf1, hf2]
  simp

/-- C1 counterexample: on a fresh handler the end-to-end scenario does not
return only the keep-alive and found-proofs events — the plot-count baseline
0 → 100 also fires, so the claimed two-event output is wrong. -/
theorem c1_end_to_end_counterexample :
    (HarvesterActivityHandler.handle HarvesterActivityHandler.init
        [⟨0, 100, 5, 0⟩, ⟨40, 100, 5, 1⟩]).2 ≠
      [keepaliveEvent, FoundProofs.foundEvent 1] := by
  rw [handle_end_to_end_eval]
  decide

/-- C1 amended: for the end-to-end scenario with the two parsed messages
{t=0, plots=100, search=5, proofs=0} and {t=40, plots=100, search=5,
proofs=1}, a fresh handler returns exactly the three events
[keepalive, plot-count-increased-to-100 (low), found-proofs (low, "1")] in
that order, with no other events. -/
theorem c1_end_to_end_amended :
    (HarvesterActivityHandler.handle HarvesterActivityHandler.init
        [⟨0, 100, 5, 0⟩, ⟨40, 100, 5, 1⟩]).2 =
      [keepaliveEvent, NonDecreasingPlots.increaseEvent 100, FoundProofs.foundEvent 1] :=
  handle_end_to_end_eval

/-- C8 counterexample: for a gap of one day plus 60.9 seconds (86460.9 s),
truncating the timestamp difference toward zero gives 86460, which exceeds
the 60-second threshold and would demand an event — but the code compares
`timedelta.seconds`, which reads 60, and emits nothing.  The compared delta
is therefore not the toward-zero truncation of the difference. -/
theorem c8_truncation_counterexample :
    truncTowardZero (864609 / 10) = 86460 ∧
    60 < truncTowardZero (864609 / 10) ∧
    timedeltaSeconds (864609 / 10) = 60 ∧
    (TimeSinceLastFarmEvent.check ⟨30, 60, some 0⟩ (msgAtTime (864609 / 10))).2 = none := by
  have htr : truncTowardZero ((864609 : ℚ) / 10) = 86460 := by
    rw [truncTowardZero, if_pos (by norm_num : (0 : ℚ) ≤ 864609 / 10), Int.floor_eq_iff]
    norm_num
  refine ⟨htr, by rw [htr]; norm_num, timedeltaSeconds_day_sixty_nine_tenths, ?_⟩
  rw [TimeSinceLastFarmEvent.check_subsequent]
  norm_num [msgAtTime, timedeltaSeconds_day_sixty_nine_tenths]

/-- C8 amended: after reduction modulo one day — for any difference `d` with
`0 ≤ d < 86400` seconds — the compared delta is the difference with
fractional seconds truncated toward zero (not rounded); in particular a gap
of 60.9 seconds compares as 60 and emits no event. -/
theorem c8_truncation_amended :
    (∀ d : ℚ, 0 ≤ d → d < 86400 → timedeltaSeconds d = truncTowardZero d) ∧
    timedeltaSeconds (609 / 10) = 60 ∧
    (TimeSinceLastFarmEvent.check ⟨30, 60, some 0⟩ (msgAtTime (609 / 10))).2 = none := by
  refine ⟨?_, timedeltaSeconds_sixty_nine_tenths, ?_⟩
  · intro d h0 h1
    have hd : timedeltaDays d = 0 :=
      timedeltaDays_eq d 0 (by norm_num [h0]) (by norm_num [h1])
    rw [truncTowardZero, if_pos h0]
    unfold timedeltaSeconds
    rw [hd]
    norm_num
  · rw [TimeSinceLastFarmEvent.check_subsequent]
    norm_num [msgAtTime, timedeltaSeconds_sixty_nine_tenths]

/-- Witness for the amended C8 at a concrete sub-day gap: a difference of 40
seconds compares as its own toward-zero truncation. -/
theorem c8_truncation_amended_witness :
    timedeltaSeconds 40 = truncTowardZero 40 :=
  c8_truncation_amended.1 40 (by decide) (by decide)

/-- C10: the elapsed-seconds computation only uses the sub-day component of
the gap — `timedelta.seconds` is invariant under adding a whole day — so a
gap of 24 hours plus 5 seconds emits nothing while a gap of 24 hours plus 61
seconds emits the warning event reporting 61 seconds. -/
theorem c10_subday_component :
    (∀ d : ℚ, timedeltaSeconds (d + 86400) = timedeltaSeconds d) ∧
    (TimeSinceLastFarmEvent.check ⟨30, 60, some 0⟩ (msgAtTime 86405)).2 = none ∧
    (TimeSinceLastFarmEvent.check ⟨30, 60, some 0⟩ (msgAtTime 86461)).2 =
      some (TimeSinceLastFarmEvent.warningEvent 61) := by
  refine ⟨?_, ?_, ?_⟩
  · intro d
    unfold timedeltaSeconds timedeltaDays
    have h1 : (d + 86400) / 86400 = d / 86400 + 1 := by
      rw [add_div]
      norm_num
    have h2 : d + 86400 - 86400 * ((⌊d / 86400⌋ + 1 : ℤ) : ℚ) =
        d - 86400 * ((⌊d / 86400⌋ : ℤ) : ℚ) := by
      push_cast
      ring
    rw [h1, Int.floor_add_one, h2]
  · rw [TimeSinceLastFarmEvent.check_subsequent]
    norm_num [msgAtTime, timedeltaSeconds_day_plus_five]
  · rw [TimeSinceLastFarmEvent.check_subsequent]
    norm_num [msgAtTime, timedeltaSeconds_day_plus_sixtyone]
